import Mathlib

/-!
Verification of the roomlogg sensor protocol (src/sensor/sensor.go).

Shallow embedding conventions:
- Go byte slices are `List Nat` (each element a byte value 0..255 where that
  matters); an out-of-bounds slice access, which panics in Go, is modelled by
  `Option`: `none` is the panic.
- Go `float32` arithmetic on temperatures is modelled by exact `Rat`
  arithmetic: every `int16` value is exactly representable in `float32`, and
  the only operation performed on it is a division by 10, which the model
  performs exactly.
- The external HID transport (github.com/karalabe/hid) is an abstract
  `Transport` parameter recording the outcome of each I/O call; the session
  functions are pure functions of it that also record the trace of events
  (lock, open, write, read, close) their Go originals perform.
- `log.Fatal` / `log.Fatalln` terminate the process without running pending
  defers: outcome `fatal`.  A nil-handle method call (Close on the nil
  device returned by a failed Open) dereferences the nil receiver inside the
  HID library: outcome `fault`.
-/

namespace Roomlogg

/-- Go struct `Sensor` from src/sensor/sensor.go.  `temperature` models the
Go `float32` field as an exact rational (see module docstring). -/
structure Sensor where
  channel : Nat
  temperature : Rat
  humidity : Nat
  absent : Bool
deriving DecidableEq, Repr

/-- Go `int16(x)` applied to a `uint16` value: two's-complement
reinterpretation of a value in 0..65535. -/
def int16OfUint16 (v : Nat) : Int :=
  if v < 32768 then (v : Int) else (v : Int) - 65536

/-- Go `binary.BigEndian.Uint16` on two bytes: high byte first. -/
def bigEndianUint16 (hi lo : Nat) : Nat := hi * 256 + lo

/-- Go `float32(temperatureSigned) / 10`, modelled exactly over `Rat`. -/
def rawToCelsius (raw : Int) : Rat := (raw : Rat) / 10

/-- One iteration of the decode loop of `getSensorDataFromBytes` for channel
`c`: reads the 3-byte slot starting at offset `1 + c*3`.  `none` models the
Go index-out-of-range panic.  The byte accesses happen in the Go order: the
status byte is read first, and the remaining two bytes only when the status
byte differs from the absent sentinel 0x7f. -/
def decodeChannel (response : List Nat) (c : Nat) : Option Sensor :=
  match response.get? (1 + c * 3) with
  | none => none
  | some b0 =>
    if b0 ≠ 0x7f then
      match response.get? (1 + c * 3 + 1), response.get? (1 + c * 3 + 2) with
      | some b1, some b2 =>
        some ⟨c, rawToCelsius (int16OfUint16 (bigEndianUint16 b0 b1)), b2, false⟩
      | _, _ => none
    else
      some ⟨c, 0, 0, true⟩

/-- The decode loop `for c := 0; c < 7; c++` applied to an explicit list of
channel indices, in order; the first panic (`none`) aborts the whole call. -/
def decodeChannels (response : List Nat) : List Nat → Option (List Sensor)
  | [] => some []
  | c :: cs =>
    match decodeChannel response c with
    | none => none
    | some s =>
      match decodeChannels response cs with
      | none => none
      | some l => some (s :: l)

/-- Go `getSensorDataFromBytes`: decodes channels 0..6 in ascending order. -/
def getSensorDataFromBytes (response : List Nat) : Option (List Sensor) :=
  decodeChannels response (List.range 7)

/-- Go `getTempRequestBytes`: a 64-byte zero buffer with the first four
bytes set to the fixed marker. -/
def getTempRequestBytes : List Nat :=
  ((((List.replicate 64 0).set 0 0x7b).set 1 0x03).set 2 0x40).set 3 0x7d

/-! ### Device session model

The external HID transport is an abstract parameter: a `Transport` fixes
the outcome of each I/O call a single session can make.  The session
functions below are direct translations of `CheckDeviceWithoutQuery` and
`QueryDeviceSensors`; besides their return value they record the ordered
trace of externally visible events, so that lock-release and close-attempt
behaviour on each exit path is part of the model. -/

/-- Outcome of one session call.  `ok` is a normal return; `err` is a
normal return of a Go error (and no readings); `fatal` is `log.Fatal` /
`log.Fatalln`, which terminates the process without running pending defers;
`fault` is a runtime fault (nil-pointer dereference), which in these
functions has no recover and also ends the process. -/
inductive Outcome (α : Type) where
  | ok : α → Outcome α
  | err : Outcome α
  | fatal : Outcome α
  | fault : Outcome α
deriving DecidableEq, Repr

/-- Externally visible events of one session call, in program order. -/
inductive Event where
  | lockAcquire : Event
  | lockRelease : Event
  | openAttempt : Event
  | writeAttempt : List Nat → Event
  | sleep : Event
  | readAttempt : Event
  | closeAttempt : Event
deriving DecidableEq, Repr

/-- Does the event read or write sensor data? -/
def Event.isDataEvent : Event → Bool
  | Event.writeAttempt _ => true
  | Event.readAttempt => true
  | _ => false

/-- Outcomes of the I/O calls available to one session, fixed by the
environment: whether `Open` succeeds, what `Write` returns (an error or a
byte count), what `Read` returns (an error or the 64-byte buffer contents
after the read), and whether `Close` returns without error. -/
structure Transport where
  openOk : Bool
  writeResult : Except Unit Nat
  readResult : Except Unit (List Nat)
  closeOk : Bool

/-- Result of one session call: its outcome plus the recorded event trace
(truncated at a `fatal` or `fault`, after which nothing more runs). -/
structure RunResult (α : Type) where
  outcome : Outcome α
  events : List Event
deriving DecidableEq, Repr

/-- Go `closeDevice`: calls `device.Close()` and treats a close error as
fatal (`log.Fatalln`).  `device = none` models the nil `*hid.Device`
returned by a failed `Open`; invoking `Close` on it dereferences the nil
receiver inside the HID library, a runtime fault. -/
def closeDevice (t : Transport) (device : Option Unit) : Outcome Unit :=
  match device with
  | none => Outcome.fault
  | some _ => if t.closeOk then Outcome.ok () else Outcome.fatal

/-- Go `CheckDeviceWithoutQuery`: lock, open, `closeDevice` on whatever
handle open produced (nil when open failed), unlock, return `valid`.  The
unlock and the return are reached only when `closeDevice` returns
normally. -/
def checkDeviceWithoutQuery (t : Transport) : RunResult Bool :=
  let valid := t.openOk
  let device : Option Unit := if t.openOk then some () else none
  match closeDevice t device with
  | Outcome.ok _ =>
    ⟨Outcome.ok valid,
     [Event.lockAcquire, Event.openAttempt, Event.closeAttempt, Event.lockRelease]⟩
  | Outcome.fatal =>
    ⟨Outcome.fatal, [Event.lockAcquire, Event.openAttempt, Event.closeAttempt]⟩
  | _ =>
    ⟨Outcome.fault, [Event.lockAcquire, Event.openAttempt, Event.closeAttempt]⟩

/-- The two defers of `QueryDeviceSensors` after a successful open, run in
LIFO order on a return (or a panic unwind) reaching them: first
`closeDevice device` on the open (non-nil) handle, then `usbLock.Unlock()`.
A fatal close skips the pending unlock and discards the return value. -/
def runDefers (t : Transport) (ret : Outcome (List Sensor)) (evs : List Event) :
    RunResult (List Sensor) :=
  match closeDevice t (some ()) with
  | Outcome.ok _ => ⟨ret, evs ++ [Event.closeAttempt, Event.lockRelease]⟩
  | _ => ⟨Outcome.fatal, evs ++ [Event.closeAttempt]⟩

/-- Go `QueryDeviceSensors`.  Note the exact defer placement of the source:
`defer usbLock.Unlock()` and `defer closeDevice(device)` are registered
only after the open-error check, so the open-failure return path runs no
defer at all.  The write path checks only the returned error, never the
returned byte count (which is only logged).  `Read` fills a fresh zeroed
64-byte buffer in place, so the decoder always sees exactly 64 bytes:
the transport's bytes truncated to 64 and padded with the buffer's
zeroes. -/
def queryDeviceSensors (t : Transport) : RunResult (List Sensor) :=
  if t.openOk then
    let evs0 := [Event.lockAcquire, Event.openAttempt,
                 Event.writeAttempt getTempRequestBytes]
    match t.writeResult with
    | Except.error _ => runDefers t Outcome.err evs0
    | Except.ok _written =>
      let evs1 := evs0 ++ [Event.sleep, Event.readAttempt]
      match t.readResult with
      | Except.error _ => runDefers t Outcome.err evs1
      | Except.ok buf =>
        let response := buf.take 64 ++ List.replicate (64 - buf.length) 0
        match getSensorDataFromBytes response with
        | some sensors => runDefers t (Outcome.ok sensors) evs1
        | none => runDefers t Outcome.fault evs1
  else
    ⟨Outcome.err, [Event.lockAcquire, Event.openAttempt]⟩

/-! ### Decoder lemmas -/

lemma decodeChannel_channel (r : List Nat) (c : Nat) (s : Sensor)
    (h : decodeChannel r c = some s) : s.channel = c := by
  unfold decodeChannel at h
  split at h
  · cases h
  · split at h
    · split at h
      · cases h; rfl
      · cases h
    · cases h; rfl

lemma decodeChannel_isSome (r : List Nat) (c : Nat) (h : 1 + c * 3 + 2 < r.length) :
    ∃ s, decodeChannel r c = some s := by
  have h0 : 1 + c * 3 < r.length := by omega
  have h1 : 1 + c * 3 + 1 < r.length := by omega
  obtain ⟨b0, hb0⟩ : ∃ b, r.get? (1 + c * 3) = some b := ⟨_, List.get?_eq_get h0⟩
  obtain ⟨b1, hb1⟩ : ∃ b, r.get? (1 + c * 3 + 1) = some b := ⟨_, List.get?_eq_get h1⟩
  obtain ⟨b2, hb2⟩ : ∃ b, r.get? (1 + c * 3 + 2) = some b := ⟨_, List.get?_eq_get h⟩
  unfold decodeChannel
  rw [hb0, hb1, hb2]
  by_cases hb : b0 = 0x7f <;> simp [hb]

lemma decodeChannel_absent (r : List Nat) (c : Nat)
    (h0 : r.get? (1 + c * 3) = some 0x7f) :
    decodeChannel r c = some ⟨c, 0, 0, true⟩ := by
  unfold decodeChannel
  rw [h0]
  simp

lemma decodeChannel_present (r : List Nat) (c b0 b1 b2 : Nat)
    (h0 : r.get? (1 + c * 3) = some b0) (hne : b0 ≠ 0x7f)
    (h1 : r.get? (1 + c * 3 + 1) = some b1) (h2 : r.get? (1 + c * 3 + 2) = some b2) :
    decodeChannel r c =
      some ⟨c, rawToCelsius (int16OfUint16 (bigEndianUint16 b0 b1)), b2, false⟩ := by
  unfold decodeChannel
  rw [h0, h1, h2]
  simp [hne]

lemma decodeChannel_congr (r1 r2 : List Nat) (c : Nat) (hc : c < 7)
    (hagree : ∀ i, 1 ≤ i → i ≤ 21 → r1.get? i = r2.get? i) :
    decodeChannel r1 c = decodeChannel r2 c := by
  unfold decodeChannel
  rw [hagree (1 + c * 3) (by omega) (by omega),
      hagree (1 + c * 3 + 1) (by omega) (by omega),
      hagree (1 + c * 3 + 2) (by omega) (by omega)]

lemma decodeChannels_get? (r : List Nat) (cs : List Nat) (l : List Sensor)
    (h : decodeChannels r cs = some l) :
    l.length = cs.length ∧ ∀ i, l.get? i = (cs.get? i).bind (decodeChannel r) := by
  induction cs generalizing l with
  | nil =>
    unfold decodeChannels at h
    cases h
    exact ⟨rfl, fun i => by cases i <;> rfl⟩
  | cons c cs ih =>
    unfold decodeChannels at h
    cases hd : decodeChannel r c with
    | none => rw [hd] at h; cases h
    | some s =>
      rw [hd] at h
      cases ht : decodeChannels r cs with
      | none => rw [ht] at h; cases h
      | some l2 =>
        rw [ht] at h
        cases h
        obtain ⟨hlen, hget⟩ := ih l2 ht
        refine ⟨by simp [hlen], fun i => ?_⟩
        cases i with
        | zero => simp [hd]
        | succ j => simpa using hget j

lemma decodeChannels_isSome (r : List Nat) (cs : List Nat)
    (h : ∀ c ∈ cs, ∃ s, decodeChannel r c = some s) :
    ∃ l, decodeChannels r cs = some l := by
  induction cs with
  | nil => exact ⟨[], rfl⟩
  | cons c cs ih =>
    obtain ⟨s, hs⟩ := h c (by simp)
    obtain ⟨l, hl⟩ := ih (fun c' hc' => h c' (by simp [hc']))
    exact ⟨s :: l, by unfold decodeChannels; rw [hs, hl]⟩

lemma decodeChannels_congr (r1 r2 : List Nat) (cs : List Nat)
    (h : ∀ c ∈ cs, decodeChannel r1 c = decodeChannel r2 c) :
    decodeChannels r1 cs = decodeChannels r2 cs := by
  induction cs with
  | nil => rfl
  | cons c cs ih =>
    unfold decodeChannels
    rw [h c (by simp), ih (fun c' hc' => h c' (by simp [hc']))]

lemma getSensorData_total (r : List Nat) (h : 22 ≤ r.length) :
    ∃ l, getSensorDataFromBytes r = some l := by
  apply decodeChannels_isSome
  intro c hc
  have hc7 : c < 7 := List.mem_range.mp hc
  exact decodeChannel_isSome r c (by omega)

lemma getSensorData_get? (r : List Nat) (l : List Sensor)
    (h : getSensorDataFromBytes r = some l) :
    l.length = 7 ∧ ∀ c, c < 7 → l.get? c = decodeChannel r c := by
  obtain ⟨hlen, hget⟩ := decodeChannels_get? r (List.range 7) l h
  refine ⟨by simpa using hlen, fun c hc => ?_⟩
  simpa [List.getElem?_range hc] using hget c

end Roomlogg

namespace Roomlogg

/-- C5: the request frame is a constant: exactly 64 bytes, bytes 0..3 are
the literal marker 7B 03 40 7D, bytes 4..63 are all zero; `getTempRequestBytes`
takes no parameters, so every invocation yields this same frame. -/
theorem getTempRequestBytes_spec :
    getTempRequestBytes = [0x7b, 0x03, 0x40, 0x7d] ++ List.replicate 60 0 := by
  decide

/-- C2: for every 64-byte response buffer, `getSensorDataFromBytes` succeeds
and produces exactly 7 readings, and the reading at position `c` has its
channel field equal to `c`, whatever the buffer contents (so regardless of
how many channels are absent). -/
theorem decode_seven_ordered (r : List Nat) (h : r.length = 64) :
    ∃ l, getSensorDataFromBytes r = some l ∧ l.length = 7 ∧
      ∀ c s, l.get? c = some s → s.channel = c := by
  obtain ⟨l, hl⟩ := getSensorData_total r (by omega)
  obtain ⟨hlen, hget⟩ := getSensorData_get? r l hl
  refine ⟨l, hl, hlen, fun c s hs => ?_⟩
  by_cases hc : c < 7
  · rw [hget c hc] at hs
    exact decodeChannel_channel r c s hs
  · rw [List.get?_eq_none.mpr (by omega)] at hs
    cases hs

/-- Witness for C2 at the concrete all-zero 64-byte response. -/
theorem decode_seven_ordered_witness :
    ∃ l, getSensorDataFromBytes (List.replicate 64 0) = some l ∧ l.length = 7 ∧
      ∀ c s, l.get? c = some s → s.channel = c :=
  decode_seven_ordered (List.replicate 64 0) (by decide)

/-- C3: if the status byte of channel `c` (offset `1 + 3c`) is the sentinel
0x7f, the decoded reading at position `c` is absent, with channel `c` and
temperature and humidity at their zero defaults, regardless of the two
remaining slot bytes (no hypothesis constrains them). -/
theorem absent_channel_decoded (r : List Nat) (c : Nat)
    (hc : c < 7) (hlen : r.length = 64)
    (h0 : r.get? (1 + c * 3) = some 0x7f) :
    ∃ l, getSensorDataFromBytes r = some l ∧
      l.get? c = some ⟨c, 0, 0, true⟩ := by
  obtain ⟨l, hl⟩ := getSensorData_total r (by omega)
  obtain ⟨-, hget⟩ := getSensorData_get? r l hl
  exact ⟨l, hl, by rw [hget c hc]; exact decodeChannel_absent r c h0⟩

/-- Witness for C3: channel 0 has status byte 0x7f and arbitrary nonzero
slot bytes 0xab 0xcd; the reading is absent with zero defaults. -/
theorem absent_channel_decoded_witness :
    ∃ l, getSensorDataFromBytes ([0, 0x7f, 0xab, 0xcd] ++ List.replicate 60 0) = some l ∧
      l.get? 0 = some ⟨0, 0, 0, true⟩ :=
  absent_channel_decoded ([0, 0x7f, 0xab, 0xcd] ++ List.replicate 60 0) 0
    (by decide) (by decide) (by decide)

/-- C4: if the status byte of channel `c` (offset `1 + 3c`) is not 0x7f, the
decoded reading at position `c` is present, its temperature is the
big-endian signed 16-bit integer formed from the bytes at offsets `1 + 3c`
and `2 + 3c` divided by 10, and its humidity is exactly the byte at offset
`3 + 3c`, for arbitrary byte values. -/
theorem present_channel_decoded (r : List Nat) (c b0 b1 b2 : Nat)
    (hc : c < 7) (hlen : r.length = 64)
    (h0 : r.get? (1 + c * 3) = some b0) (hne : b0 ≠ 0x7f)
    (h1 : r.get? (2 + c * 3) = some b1) (h2 : r.get? (3 + c * 3) = some b2) :
    ∃ l, getSensorDataFromBytes r = some l ∧
      l.get? c = some ⟨c, rawToCelsius (int16OfUint16 (bigEndianUint16 b0 b1)), b2, false⟩ := by
  obtain ⟨l, hl⟩ := getSensorData_total r (by omega)
  obtain ⟨-, hget⟩ := getSensorData_get? r l hl
  have h1' : r.get? (1 + c * 3 + 1) = some b1 := by
    rw [show 1 + c * 3 + 1 = 2 + c * 3 from by ring]; exact h1
  have h2' : r.get? (1 + c * 3 + 2) = some b2 := by
    rw [show 1 + c * 3 + 2 = 3 + c * 3 from by ring]; exact h2
  exact ⟨l, hl, by rw [hget c hc]; exact decodeChannel_present r c b0 b1 b2 h0 hne h1' h2'⟩

/-- Witness for C4: channel 0 carries bytes 0xff 0xce (raw signed value
-50, so -5.0 degrees: the signed interpretation, not the large unsigned
one) and humidity byte 55. -/
theorem present_channel_decoded_witness :
    ∃ l, getSensorDataFromBytes ([0, 0xff, 0xce, 55] ++ List.replicate 60 0) = some l ∧
      l.get? 0 = some ⟨0, -5, 55, false⟩ := by
  obtain ⟨l, hl, hg⟩ := present_channel_decoded ([0, 0xff, 0xce, 55] ++ List.replicate 60 0)
    0 0xff 0xce 55 (by decide) (by decide) (by decide) (by decide) (by decide) (by decide)
  refine ⟨l, hl, ?_⟩
  rw [hg]
  norm_num [rawToCelsius, int16OfUint16, bigEndianUint16]

/-- C9: under the precondition that the response buffer holds at least 22
bytes, decoding is total (the out-of-bounds branch is unreachable), and the
result depends only on the bytes at offsets 1 through 21: two sufficiently
long buffers that agree there decode identically. -/
theorem decoder_in_bounds (r1 r2 : List Nat) (h1 : 22 ≤ r1.length) (_h2 : 22 ≤ r2.length)
    (hagree : ∀ i, 1 ≤ i → i ≤ 21 → r1.get? i = r2.get? i) :
    (∃ l, getSensorDataFromBytes r1 = some l) ∧
      getSensorDataFromBytes r1 = getSensorDataFromBytes r2 := by
  refine ⟨getSensorData_total r1 h1, ?_⟩
  unfold getSensorDataFromBytes
  apply decodeChannels_congr
  intro c hc
  exact decodeChannel_congr r1 r2 c (List.mem_range.mp hc) hagree

/-- Witness for C9: two 22-byte buffers differing only at offset 0 decode
identically, and decoding succeeds. -/
theorem decoder_in_bounds_witness :
    (∃ l, getSensorDataFromBytes (99 :: List.replicate 21 0) = some l) ∧
      getSensorDataFromBytes (99 :: List.replicate 21 0) =
        getSensorDataFromBytes (0 :: List.replicate 21 0) :=
  decoder_in_bounds (99 :: List.replicate 21 0) (0 :: List.replicate 21 0)
    (by decide) (by decide)
    (fun i h1i h2i => by
      cases i with
      | zero => omega
      | succ j => rfl)

/-- C1 (refutation at the failing input): on the open-failure path,
`queryDeviceSensors` returns an error while the process-wide lock is still
held (no lock-release event) and without any close attempt: the two defers
of the source are registered only after the open-error check, so the claim
that the lock is released and a close attempted on every exit path fails
exactly there. -/
theorem open_failure_leaks_lock :
    (queryDeviceSensors ⟨false, Except.ok 64, Except.ok (List.replicate 64 0), true⟩).outcome
        = Outcome.err ∧
    (queryDeviceSensors ⟨false, Except.ok 64, Except.ok (List.replicate 64 0), true⟩).events
        = [Event.lockAcquire, Event.openAttempt] ∧
    (queryDeviceSensors ⟨false, Except.ok 64, Except.ok (List.replicate 64 0), true⟩).events.count
        Event.lockRelease = 0 ∧
    (queryDeviceSensors ⟨false, Except.ok 64, Except.ok (List.replicate 64 0), true⟩).events.count
        Event.closeAttempt = 0 := by
  refine ⟨rfl, rfl, rfl, rfl⟩

/-- C6 counterexample: with a transport whose open succeeds but whose close
then fails, `checkDeviceWithoutQuery` does not return at all — the close
failure is `log.Fatalln`, terminating the process — contradicting the claim
that it returns true whenever the open succeeded. -/
theorem checkDevice_close_failure_fatal :
    (checkDeviceWithoutQuery ⟨true, Except.ok 64, Except.ok [], false⟩).outcome
        = Outcome.fatal ∧
    (checkDeviceWithoutQuery ⟨true, Except.ok 64, Except.ok [], false⟩).outcome
        ≠ Outcome.ok true := by
  refine ⟨rfl, by decide⟩

/-- C6 amended: `checkDeviceWithoutQuery` never reads or writes sensor
data; it returns true when open and close both succeed; a close failure is
fatal to the process instead of a return; and when the open fails it
invokes Close on the nil handle — a runtime fault in the HID library —
rather than returning false. -/
theorem checkDevice_characterized (t : Transport) :
    ((checkDeviceWithoutQuery t).events.all fun e => !e.isDataEvent) = true ∧
    (checkDeviceWithoutQuery t).outcome =
      (if t.openOk then (if t.closeOk then Outcome.ok true else Outcome.fatal)
       else Outcome.fault) := by
  obtain ⟨o, w, r, c⟩ := t
  cases o <;> cases c <;> exact ⟨rfl, rfl⟩

/-- C7: when the write call fails, `queryDeviceSensors` makes exactly one
close attempt on the handle and — the close returning normally — returns
an error and no readings, having released the lock. -/
theorem write_failure_one_close (t : Transport)
    (hopen : t.openOk = true) (hw : t.writeResult = Except.error ()) :
    (queryDeviceSensors t).events.count Event.closeAttempt = 1 ∧
    (t.closeOk = true → queryDeviceSensors t =
      ⟨Outcome.err, [Event.lockAcquire, Event.openAttempt,
                     Event.writeAttempt getTempRequestBytes,
                     Event.closeAttempt, Event.lockRelease]⟩) := by
  obtain ⟨o, w, r, c⟩ := t
  simp only at hopen hw
  subst hopen
  subst hw
  cases c
  · exact ⟨rfl, fun hc => by cases hc⟩
  · exact ⟨rfl, fun _ => rfl⟩

/-- Witness for C7 at a concrete transport whose write fails and whose
close succeeds. -/
theorem write_failure_one_close_witness :
    (queryDeviceSensors ⟨true, Except.error (), Except.ok [], true⟩).events.count
        Event.closeAttempt = 1 ∧
    ((true : Bool) = true → queryDeviceSensors ⟨true, Except.error (), Except.ok [], true⟩ =
      ⟨Outcome.err, [Event.lockAcquire, Event.openAttempt,
                     Event.writeAttempt getTempRequestBytes,
                     Event.closeAttempt, Event.lockRelease]⟩) :=
  write_failure_one_close ⟨true, Except.error (), Except.ok [], true⟩ rfl rfl

/-- C8 counterexample: a transport whose write reports 0 of the 64 request
bytes written, with no error, is not surfaced: the query proceeds, decodes
the all-zero response, and returns 7 present readings with no error,
contradicting the claim that every write outcome of fewer than 64 bytes
yields an error and no readings. -/
theorem short_write_not_error :
    (queryDeviceSensors ⟨true, Except.ok 0, Except.ok (List.replicate 64 0), true⟩).outcome
        ≠ Outcome.err ∧
    (queryDeviceSensors ⟨true, Except.ok 0, Except.ok (List.replicate 64 0), true⟩).outcome
        ≠ Outcome.fatal ∧
    (queryDeviceSensors ⟨true, Except.ok 0, Except.ok (List.replicate 64 0), true⟩).outcome
        ≠ Outcome.fault ∧
    (queryDeviceSensors ⟨true, Except.ok 0, Except.ok (List.replicate 64 0), true⟩).events =
      [Event.lockAcquire, Event.openAttempt, Event.writeAttempt getTempRequestBytes,
       Event.sleep, Event.readAttempt, Event.closeAttempt, Event.lockRelease] := by
  decide

/-- C8 amended: `queryDeviceSensors` surfaces a write failure exactly when
the write call reports an error; the returned byte count is only logged,
never compared to 64, so a write reporting any count — including fewer
than 64 bytes — without an error is not surfaced: if the read then
succeeds, the call returns 7 readings and no error. -/
theorem write_error_only_surfaced (t : Transport)
    (hopen : t.openOk = true) (hclose : t.closeOk = true) :
    ((∃ e, t.writeResult = Except.error e) → (queryDeviceSensors t).outcome = Outcome.err) ∧
    (∀ n buf, t.writeResult = Except.ok n → t.readResult = Except.ok buf →
      ∃ l, (queryDeviceSensors t).outcome = Outcome.ok l ∧ l.length = 7) := by
  obtain ⟨o, w, r, c⟩ := t
  simp only at hopen hclose
  subst hopen
  subst hclose
  constructor
  · rintro ⟨e, he⟩
    simp only at he
    subst he
    rfl
  · intro n buf hw hr
    simp only at hw hr
    subst hw
    subst hr
    have hlen : (buf.take 64 ++ List.replicate (64 - buf.length) 0).length = 64 := by
      simp [List.length_take, List.length_append, List.length_replicate]
      omega
    obtain ⟨l, hl⟩ := getSensorData_total (buf.take 64 ++ List.replicate (64 - buf.length) 0)
      (by omega)
    obtain ⟨hl7, -⟩ := getSensorData_get? (buf.take 64 ++ List.replicate (64 - buf.length) 0) l hl
    refine ⟨l, ?_, hl7⟩
    simp only [queryDeviceSensors, runDefers, closeDevice]
    rw [hl]
    simp

/-- Witness for C8 amended: the short-write transport of the
counterexample yields 7 readings and no error. -/
theorem write_error_only_surfaced_witness :
    ∃ l, (queryDeviceSensors ⟨true, Except.ok 0, Except.ok (List.replicate 64 0), true⟩).outcome
        = Outcome.ok l ∧ l.length = 7 :=
  (write_error_only_surfaced ⟨true, Except.ok 0, Except.ok (List.replicate 64 0), true⟩
    rfl rfl).2 0 (List.replicate 64 0) rfl rfl

end Roomlogg
